import Mathlib

/-!
Shallow embedding of `gulp-stylelint-checkstyle` (src/index.js, together with
the earlier revision of the same file) and proofs about its adapter pipeline,
issue counter, reporters and stream controller.

JavaScript records are embedded as Lean structures; arrays as `List`;
functions that may throw return `Except`/`Option`; side effects (console
logging, scheduling the report write, emitting stream errors) are made
explicit as returned event traces.
-/

namespace GulpStylelintCheckstyle

/-- Name of this plugin for reporting purposes (`pluginName` in the source). -/
def pluginName : String := "gulp-stylelint-checkstyle"

/-- JavaScript value occupying the dynamically-typed `severity` field: the
current revision carries string tags, the legacy table lookup can produce
`undefined`, and legacy stylelint emitted numeric severities. -/
inductive JsValue
  | str (s : String)
  | num (n : Nat)
  | undef
  deriving DecidableEq, Repr

/-- A raw stylelint message (`message` objects in the source): position,
severity, text, and the `plugin` tag identifying the emitting engine. -/
structure StylelintMessage where
  line : Nat
  column : Nat
  severity : JsValue
  text : String
  plugin : String
  deriving DecidableEq, Repr

/-- The `opts` record of a PostCSS result; only `from` is read. -/
structure StylelintOpts where
  «from» : String
  deriving DecidableEq, Repr

/-- A raw per-file stylelint result: origin under `opts.from` plus the
message array. -/
structure StylelintResult where
  opts : StylelintOpts
  messages : List StylelintMessage
  deriving DecidableEq, Repr

/-- A checkstyle-format message as produced by the message adapter. -/
structure CheckstyleMessage where
  line : Nat
  column : Nat
  severity : JsValue
  message : String
  deriving DecidableEq, Repr

/-- A checkstyle-format per-file result as produced by the result adapter. -/
structure CheckstyleResult where
  filename : String
  messages : List CheckstyleMessage
  deriving DecidableEq, Repr

/-- Adapts a stylelint message to checkstyle format
(`stylelintToCheckstyleMessageAdapter`, current revision): keeps `line`,
`column` and `severity`, renames `text` to `message`, drops `plugin`. -/
def stylelintToCheckstyleMessageAdapter (message : StylelintMessage) : CheckstyleMessage :=
  { line := message.line
    column := message.column
    severity := message.severity
    message := message.text }

/-- Adapts a stylelint message list to checkstyle format
(`stylelintToCheckstyleMessageListAdapter`): filters to messages whose
`plugin` tag is `stylelint`, then maps each through the message adapter. -/
def stylelintToCheckstyleMessageListAdapter
    (messageList : List StylelintMessage) : List CheckstyleMessage :=
  (messageList.filter fun message => message.plugin == "stylelint").map
    stylelintToCheckstyleMessageAdapter

/-- Adapts one stylelint result to checkstyle format
(`stylelineToCheckstyleResultAdapter`, name as in the source). -/
def stylelineToCheckstyleResultAdapter (result : StylelintResult) : CheckstyleResult :=
  { filename := result.opts.«from»
    messages := stylelintToCheckstyleMessageListAdapter result.messages }

/-- Adapts a stylelint result list to checkstyle format
(`stylelintToCheckstyleResultListAdapter`): filters out results whose raw
`messages` array is empty, then maps through the result adapter. -/
def stylelintToCheckstyleResultListAdapter
    (resultList : List StylelintResult) : List CheckstyleResult :=
  (resultList.filter fun result => result.messages.length > 0).map
    stylelineToCheckstyleResultAdapter

namespace Legacy

/-- String to which JavaScript converts a property key before lookup in an
object literal such as `severityTypeMapping`. -/
def jsKeyString : JsValue → String
  | JsValue.str s => s
  | JsValue.num n => toString n
  | JsValue.undef => "undefined"

/-- Severity type mapping of the earlier revision, the object literal with
numeric keys mapping 1 to warning and 2 to error; any other key misses the
table and the lookup evaluates to undefined. -/
def severityTypeMapping (key : JsValue) : JsValue :=
  if jsKeyString key = "1" then JsValue.str "warning"
  else if jsKeyString key = "2" then JsValue.str "error"
  else JsValue.undef

/-- Message adapter of the earlier revision: identical to the current one
except that `severity` goes through the `severityTypeMapping` table lookup. -/
def stylelintToCheckstyleMessageAdapter (message : StylelintMessage) : CheckstyleMessage :=
  { line := message.line
    column := message.column
    severity := severityTypeMapping message.severity
    message := message.text }

end Legacy

/-- Counts issues in a result list (`countIssuesInResultList`): a reduce
summing the length of each entry's countable message sequence, starting
from 0. The source function is duck-typed over any entry shape exposing a
`messages` array; the accessor argument embeds that polymorphism. -/
def countIssuesInResultList {α β : Type} (messages : α → List β)
    (resultList : List α) : Nat :=
  resultList.foldl (fun resultMemo result => resultMemo + (messages result).length) 0

/-- Fail-policy reporter (`failAfterAllErrorsReporter`): throws a
pluralized descriptive error when the issue count is positive, otherwise
returns nothing. -/
def failAfterAllErrorsReporter (resultList : List StylelintResult) : Except String Unit :=
  let errorCount := countIssuesInResultList StylelintResult.messages resultList
  if errorCount > 0 then
    let errorNotice := if errorCount = 1 then "issue has" else "issues have"
    Except.error (toString errorCount ++ " linting " ++ errorNotice ++ " been found.")
  else
    Except.ok ()

/-- One console log call, structurally recording what the source formats:
a header line underlining the result origin, or a message line with
coordinates, the colored severity notice, and the message text. -/
inductive LogEvent
  | headerLine (source : String)
  | messageLine (line : Nat) (column : Nat) (severityNotice : String) (text : String)
  deriving DecidableEq, Repr

/-- Logs one issue (`consoleMessageReporter`): gray coordinates, red
`error` when severity is the error tag and yellow `warning` otherwise,
then the message text. -/
def consoleMessageReporter (message : StylelintMessage) : LogEvent :=
  LogEvent.messageLine message.line message.column
    (if message.severity == JsValue.str "error" then "error" else "warning")
    message.text

/-- Logs a result's source then its engine-tagged messages
(`consoleResultReporter`). -/
def consoleResultReporter (result : StylelintResult) : List LogEvent :=
  LogEvent.headerLine result.opts.«from» ::
    ((result.messages.filter fun message => message.plugin == "stylelint").map
      consoleMessageReporter)

/-- Console reporter (`consoleResultListReporter`): logs each result that
has at least one raw message, and returns the input list unchanged. The
first component is the log trace, the second the returned value. -/
def consoleResultListReporter
    (resultList : List StylelintResult) : List LogEvent × List StylelintResult :=
  (((resultList.filter fun result => result.messages.length > 0).map
      consoleResultReporter).flatten,
    resultList)

/-- Reporter selected by configuration flags; the checkstyle writer is
always selected, the other two by `reportToConsole` and
`failAfterAllErrors`. -/
inductive Reporter
  | checkstyle
  | console
  | failPolicy
  deriving DecidableEq, Repr

/-- The reporter array built inside `provideResultsToReporters`: starts
with the checkstyle reporter and pushes the console and fail-policy
reporters when their flags are set. -/
def selectedReporters (reportToConsole failAfterAllErrors : Bool) : List Reporter :=
  [Reporter.checkstyle]
    ++ (if reportToConsole then [Reporter.console] else [])
    ++ (if failAfterAllErrors then [Reporter.failPolicy] else [])

/-- Observable effect of invoking one reporter: the invocation itself with
its argument, the scheduling of the report write (the promise chain of
`checkstyleReporter` adapting, formatting and writing the results), or the
console log trace. -/
inductive Effect
  | invoked (reporter : Reporter) (argument : List StylelintResult)
  | writeScheduled (report : List CheckstyleResult)
  | logged (trace : List LogEvent)
  deriving DecidableEq, Repr

/-- Invokes one reporter on the results, returning its effects and an
error when the invocation throws synchronously. `checkstyleReporter`
builds a promise chain (the write is scheduled and will run regardless of
later throws), the console reporter logs synchronously and never throws,
and the fail-policy reporter throws exactly when
`failAfterAllErrorsReporter` produces an error. -/
def runReporter (results : List StylelintResult) :
    Reporter → List Effect × Option String
  | Reporter.checkstyle =>
    ([Effect.invoked Reporter.checkstyle results,
      Effect.writeScheduled (stylelintToCheckstyleResultListAdapter results)], none)
  | Reporter.console =>
    ([Effect.invoked Reporter.console results,
      Effect.logged (consoleResultListReporter results).1], none)
  | Reporter.failPolicy =>
    ([Effect.invoked Reporter.failPolicy results],
      match failAfterAllErrorsReporter results with
      | Except.error e => some e
      | Except.ok _ => none)

/-- Semantics of `reporters.map(reporter => reporter(results))`: reporters
are invoked in array order; a synchronous throw stops the map, but effects
of reporters already invoked (in particular an already-scheduled write)
stand. -/
def mapReporters (results : List StylelintResult) :
    List Reporter → List Effect × Option String
  | [] => ([], none)
  | r :: rest =>
    let out := runReporter results r
    match out.2 with
    | some e => (out.1, some e)
    | none =>
      let tail := mapReporters results rest
      (out.1 ++ tail.1, tail.2)

/-- Provides the results to every selected reporter
(`provideResultsToReporters`): builds the reporter array from the flags
and maps each reporter over the same result collection. -/
def provideResultsToReporters (reportToConsole failAfterAllErrors : Bool)
    (results : List StylelintResult) : List Effect × Option String :=
  mapReporters results (selectedReporters reportToConsole failAfterAllErrors)

/-- Content state of a piped file record: `isNull`, `isStream`, or a fully
buffered payload. -/
inductive FileContents
  | null
  | streamed
  | buffered (contents : String)
  deriving DecidableEq, Repr

/-- A piped file record: its three-way content state and its path. -/
structure File where
  contents : FileContents
  path : String
  deriving DecidableEq, Repr

/-- A pending lint operation, as created by
`postcssProcessor.process(fileContents, {from: file.path})` and pushed
onto `promiseList`. -/
structure LintOperation where
  contents : String
  «from» : String
  deriving DecidableEq, Repr

/-- A `gulpUtil.PluginError`: the plugin identity tag plus the message. -/
structure PluginError where
  plugin : String
  message : String
  deriving DecidableEq, Repr

/-- Outcome of one `onFile` call: the updated pending-operation list, the
record passed downstream when the callback receives one, and the error
passed to the callback when it receives one. -/
structure OnFileOutcome where
  promiseList : List LintOperation
  passedThrough : Option File
  error : Option PluginError
  deriving DecidableEq, Repr

/-- Transform handler `onFile`: null records pass through untouched,
streaming records fail immediately with a plugin-tagged error and are not
passed through nor linted, buffered records start a lint operation keyed
by their path, append it to the pending list, and pass through. -/
def onFile (promiseList : List LintOperation) (file : File) : OnFileOutcome :=
  match file.contents with
  | FileContents.null =>
    { promiseList := promiseList, passedThrough := some file, error := none }
  | FileContents.streamed =>
    { promiseList := promiseList
      passedThrough := none
      error := some { plugin := pluginName, message := "Streaming not supported" } }
  | FileContents.buffered contents =>
    { promiseList := promiseList ++ [{ contents := contents, «from» := file.path }]
      passedThrough := some file
      error := none }

/-- Stream state accumulated over the collecting phase: pending lint
operations, records passed downstream, and errors emitted so far. -/
structure BatchState where
  promiseList : List LintOperation
  passedThrough : List File
  errors : List PluginError
  deriving DecidableEq, Repr

/-- Folds one `onFile` outcome into the batch state. -/
def stepFile (st : BatchState) (file : File) : BatchState :=
  let out := onFile st.promiseList file
  { promiseList := out.promiseList
    passedThrough := st.passedThrough ++ out.passedThrough.toList
    errors := st.errors ++ out.error.toList }

/-- Runs the collecting phase over a whole input sequence, starting from
the empty per-invocation state created at stream construction. -/
def processFiles (files : List File) : BatchState :=
  files.foldl stepFile { promiseList := [], passedThrough := [], errors := [] }

/-- Semantics of the JavaScript expression `value || fallback` when
`value` holds an optional string: the empty string is falsy, every other
string truthy, and an absent value falsy. -/
def jsOrDefault (value : Option String) (fallback : String) : String :=
  match value with
  | some s => if s = "" then fallback else s
  | none => fallback

/-- Models `path.resolve(cwd, p)`: an absolute path wins, a relative one
is joined onto the working directory. (Segment normalization of the real
`path.resolve` is not modelled; both compared call sites go through this
same function.) -/
def pathResolve (cwd p : String) : String :=
  if p.startsWith "/" then p else cwd ++ "/" ++ p

/-- Models `path.dirname`: the path up to the last separator, or the
current directory when there is none. -/
def pathDirname (p : String) : String :=
  let parts := p.splitOn "/"
  if parts.length ≤ 1 then "." else String.intercalate "/" parts.dropLast

/-- Configuration captured once at stream construction. -/
structure StreamConfig where
  outputFile : String
  outputDir : String
  deriving DecidableEq, Repr

/-- Construction-time configuration capture of `gulpStylelintCheckstyle`:
the working directory is read once, the output option (defaulting over
falsy values to `checkstyle.xml`) is resolved against it, and the
containing directory is derived. -/
def gulpStylelintCheckstyle (cwd : String) (output : Option String) : StreamConfig :=
  let outputFile := pathResolve cwd (jsOrDefault output "checkstyle.xml")
  { outputFile := outputFile, outputDir := pathDirname outputFile }

/-- Helper: the issue-counting fold from an arbitrary accumulator. -/
lemma countIssues_foldl {α β : Type} (messages : α → List β) (n : Nat) (l : List α) :
    l.foldl (fun resultMemo result => resultMemo + (messages result).length) n
      = n + (l.map fun result => (messages result).length).sum := by
  induction l generalizing n with
  | nil => simp
  | cons a t ih => simp [List.foldl, ih, Nat.add_assoc]

/-- Helper: the issue counter is the sum of per-entry message lengths. -/
lemma countIssues_eq_sum {α β : Type} (messages : α → List β) (l : List α) :
    countIssuesInResultList messages l = (l.map fun result => (messages result).length).sum := by
  simpa using countIssues_foldl messages 0 l

/-- C5: the issue counter is additive over concatenation of result
collections, counts the empty collection as zero, and is never negative. -/
theorem countIssuesInResultList_additive {α β : Type} (messages : α → List β)
    (A B : List α) :
    countIssuesInResultList messages (A ++ B)
        = countIssuesInResultList messages A + countIssuesInResultList messages B
      ∧ countIssuesInResultList messages ([] : List α) = 0
      ∧ 0 ≤ countIssuesInResultList messages A := by
  refine ⟨?_, rfl, Nat.zero_le _⟩
  simp [countIssues_eq_sum]

/-- C8: the issue counter is duck-typed over the per-entry countable
message sequence, so it sums the sequence lengths both over raw stylelint
results and over normalized checkstyle results. -/
theorem countIssuesInResultList_uniform (raw : List StylelintResult)
    (norm : List CheckstyleResult) :
    countIssuesInResultList StylelintResult.messages raw
        = (raw.map fun result => result.messages.length).sum
      ∧ countIssuesInResultList CheckstyleResult.messages norm
        = (norm.map fun result => result.messages.length).sum :=
  ⟨countIssues_eq_sum StylelintResult.messages raw,
    countIssues_eq_sum CheckstyleResult.messages norm⟩

/-- C9: the console reporter returns its input list unchanged and logs
nothing on the empty list. -/
theorem consoleResultListReporter_transparent (resultList : List StylelintResult) :
    (consoleResultListReporter resultList).2 = resultList
      ∧ (consoleResultListReporter ([] : List StylelintResult)).1 = [] :=
  ⟨rfl, rfl⟩

/-- C10: an empty-string output option behaves exactly like an absent one:
the configuration captured at construction is identical, and the resolved
report path is the default checkstyle.xml resolved against the working
directory. -/
theorem gulpStylelintCheckstyle_defaultOutput (cwd : String) :
    gulpStylelintCheckstyle cwd (some "") = gulpStylelintCheckstyle cwd none
      ∧ (gulpStylelintCheckstyle cwd (some "")).outputFile
        = pathResolve cwd "checkstyle.xml" :=
  ⟨rfl, rfl⟩

/-- C4: the message-list adapter outputs exactly the engine-tagged
subsequence of its input, in order, each message projected by keeping
line, column and severity, dropping the plugin tag and renaming text to
message. -/
theorem messageListAdapter_filters_engine_tagged (messageList : List StylelintMessage) :
    stylelintToCheckstyleMessageListAdapter messageList
        = (messageList.filter fun message => message.plugin == "stylelint").map
            (fun message =>
              { line := message.line
                column := message.column
                severity := message.severity
                message := message.text })
      ∧ List.Sublist (messageList.filter fun message => message.plugin == "stylelint")
          messageList :=
  ⟨rfl, List.filter_sublist messageList⟩

/-- C3: the fail-policy reporter succeeds exactly when the issue count is
zero, reports a singular message at count one, and a pluralized message
carrying the exact count at two or more. -/
theorem failAfterAllErrorsReporter_spec (resultList : List StylelintResult) :
    (failAfterAllErrorsReporter resultList = Except.ok ()
        ↔ countIssuesInResultList StylelintResult.messages resultList = 0)
      ∧ (countIssuesInResultList StylelintResult.messages resultList = 1 →
          failAfterAllErrorsReporter resultList
            = Except.error "1 linting issue has been found.")
      ∧ (2 ≤ countIssuesInResultList StylelintResult.messages resultList →
          failAfterAllErrorsReporter resultList
            = Except.error
                (toString (countIssuesInResultList StylelintResult.messages resultList)
                  ++ " linting issues have been found.")) := by
  refine ⟨?_, ?_, ?_⟩
  · unfold failAfterAllErrorsReporter
    by_cases h : countIssuesInResultList StylelintResult.messages resultList = 0
    · simp [h]
    · simp [h, Nat.pos_of_ne_zero h]
  · intro h
    simp only [failAfterAllErrorsReporter, h]
    rfl
  · intro h
    have h0 : countIssuesInResultList StylelintResult.messages resultList > 0 := by omega
    have h1 : countIssuesInResultList StylelintResult.messages resultList ≠ 1 := by omega
    simp [failAfterAllErrorsReporter, h0, h1, String.append_assoc]

/-- Witness for C3 at concrete result lists with one and with two issues. -/
theorem failAfterAllErrorsReporter_spec_witness :
    countIssuesInResultList StylelintResult.messages
        [{ opts := { «from» := "a.css" }
           messages := [{ line := 1, column := 1, severity := JsValue.str "warning"
                          text := "t1", plugin := "stylelint" }] }] = 1
      ∧ failAfterAllErrorsReporter
          [{ opts := { «from» := "a.css" }
             messages := [{ line := 1, column := 1, severity := JsValue.str "warning"
                            text := "t1", plugin := "stylelint" }] }]
        = Except.error "1 linting issue has been found."
      ∧ failAfterAllErrorsReporter
          [{ opts := { «from» := "a.css" }
             messages := [{ line := 1, column := 1, severity := JsValue.str "warning"
                            text := "t1", plugin := "stylelint" },
                          { line := 2, column := 3, severity := JsValue.str "error"
                            text := "t2", plugin := "stylelint" }] }]
        = Except.error "2 linting issues have been found." :=
  ⟨by decide,
    (failAfterAllErrorsReporter_spec _).2.1 (by decide),
    (failAfterAllErrorsReporter_spec _).2.2 (by decide)⟩

/-- C1: the result-list adapter filters on the raw message list, so a
result whose messages are all non-engine-tagged but non-empty passes the
filter and yields an adapted entry with the result's origin as filename
and an empty messages sequence. -/
theorem resultListAdapter_filters_raw (resultList : List StylelintResult)
    (result : StylelintResult) (hmem : result ∈ resultList)
    (hne : result.messages ≠ [])
    (hall : ∀ message ∈ result.messages, message.plugin ≠ "stylelint") :
    ({ filename := result.opts.«from», messages := [] } : CheckstyleResult)
      ∈ stylelintToCheckstyleResultListAdapter resultList := by
  unfold stylelintToCheckstyleResultListAdapter
  refine List.mem_map.mpr ⟨result, List.mem_filter.mpr ⟨hmem, ?_⟩, ?_⟩
  · simpa [List.length_pos] using hne
  · unfold stylelineToCheckstyleResultAdapter stylelintToCheckstyleMessageListAdapter
    have hnil : result.messages.filter (fun message => message.plugin == "stylelint") = [] := by
      refine List.filter_eq_nil_iff.mpr ?_
      intro m hm
      simpa using hall m hm
    simp [hnil]

/-- Witness for C1: a single result with one non-engine-tagged message
appears in the adapted output with empty messages. -/
theorem resultListAdapter_filters_raw_witness :
    ({ filename := "a.css", messages := [] } : CheckstyleResult)
      ∈ stylelintToCheckstyleResultListAdapter
          [{ opts := { «from» := "a.css" }
             messages := [{ line := 1, column := 1, severity := JsValue.str "warning"
                            text := "t", plugin := "postcss-import" }] }] :=
  resultListAdapter_filters_raw _
    { opts := { «from» := "a.css" }
      messages := [{ line := 1, column := 1, severity := JsValue.str "warning"
                     text := "t", plugin := "postcss-import" }] }
    (by decide) (by decide) (by decide)

/-- C2 counterexample: on a diagnostic whose severity is the enum tag
warning, the table-lookup variant misses the numeric-keyed severity table
and yields undefined severity, so the two adapter variants disagree. -/
theorem messageAdapter_variants_disagree_on_tags :
    Legacy.stylelintToCheckstyleMessageAdapter
        { line := 1, column := 2, severity := JsValue.str "warning"
          text := "bad", plugin := "stylelint" }
      ≠ stylelintToCheckstyleMessageAdapter
          { line := 1, column := 2, severity := JsValue.str "warning"
            text := "bad", plugin := "stylelint" } := by
  decide

/-- C2 amended: the identity variant preserves the severity tag; the
legacy table keys on the numeric severity codes, so it agrees with the
identity variant exactly when fed the numeric code corresponding to the
tag (1 for warning, 2 for error), and yields undefined severity on the
enum tags themselves. -/
theorem messageAdapter_variants_agree_on_codes (message : StylelintMessage) :
    (stylelintToCheckstyleMessageAdapter message).severity = message.severity
      ∧ (message.severity = JsValue.num 1 →
          Legacy.stylelintToCheckstyleMessageAdapter message
            = stylelintToCheckstyleMessageAdapter
                { message with severity := JsValue.str "warning" })
      ∧ (message.severity = JsValue.num 2 →
          Legacy.stylelintToCheckstyleMessageAdapter message
            = stylelintToCheckstyleMessageAdapter
                { message with severity := JsValue.str "error" })
      ∧ (message.severity = JsValue.str "warning" ∨ message.severity = JsValue.str "error" →
          (Legacy.stylelintToCheckstyleMessageAdapter message).severity = JsValue.undef) := by
  have h1 : Legacy.severityTypeMapping (JsValue.num 1) = JsValue.str "warning" := by decide
  have h2 : Legacy.severityTypeMapping (JsValue.num 2) = JsValue.str "error" := by decide
  have hw : Legacy.severityTypeMapping (JsValue.str "warning") = JsValue.undef := by decide
  have he : Legacy.severityTypeMapping (JsValue.str "error") = JsValue.undef := by decide
  refine ⟨rfl, ?_, ?_, ?_⟩
  · intro h
    simp [Legacy.stylelintToCheckstyleMessageAdapter, stylelintToCheckstyleMessageAdapter,
      h, h1]
  · intro h
    simp [Legacy.stylelintToCheckstyleMessageAdapter, stylelintToCheckstyleMessageAdapter,
      h, h2]
  · intro h
    rcases h with h | h <;>
      simp [Legacy.stylelintToCheckstyleMessageAdapter, h, hw, he]

/-- Witness for C2 amended, at concrete messages carrying the numeric
severity codes one and two and the warning tag. -/
theorem messageAdapter_variants_agree_on_codes_witness :
    Legacy.stylelintToCheckstyleMessageAdapter
        { line := 3, column := 4, severity := JsValue.num 1, text := "w", plugin := "stylelint" }
      = stylelintToCheckstyleMessageAdapter
          { line := 3, column := 4, severity := JsValue.str "warning"
            text := "w", plugin := "stylelint" }
      ∧ Legacy.stylelintToCheckstyleMessageAdapter
          { line := 5, column := 6, severity := JsValue.num 2, text := "e", plugin := "stylelint" }
        = stylelintToCheckstyleMessageAdapter
            { line := 5, column := 6, severity := JsValue.str "error"
              text := "e", plugin := "stylelint" }
      ∧ (Legacy.stylelintToCheckstyleMessageAdapter
            { line := 7, column := 8, severity := JsValue.str "warning"
              text := "t", plugin := "stylelint" }).severity = JsValue.undef :=
  ⟨(messageAdapter_variants_agree_on_codes _).2.1 rfl,
    (messageAdapter_variants_agree_on_codes _).2.2.1 rfl,
    (messageAdapter_variants_agree_on_codes _).2.2.2 (Or.inl rfl)⟩

/-- C6: with both flags enabled the reporter array is exactly the three
reporters; each is invoked on the same result collection, the report
write is scheduled and the console trace logged even when the fail-policy
reporter throws, and the aggregate outcome errors exactly when the issue
count is positive. -/
theorem provideResultsToReporters_independent (results : List StylelintResult) :
    selectedReporters true true
        = [Reporter.checkstyle, Reporter.console, Reporter.failPolicy]
      ∧ Effect.invoked Reporter.checkstyle results
          ∈ (provideResultsToReporters true true results).1
      ∧ Effect.invoked Reporter.console results
          ∈ (provideResultsToReporters true true results).1
      ∧ Effect.invoked Reporter.failPolicy results
          ∈ (provideResultsToReporters true true results).1
      ∧ Effect.writeScheduled (stylelintToCheckstyleResultListAdapter results)
          ∈ (provideResultsToReporters true true results).1
      ∧ Effect.logged (consoleResultListReporter results).1
          ∈ (provideResultsToReporters true true results).1
      ∧ ((provideResultsToReporters true true results).2 = none
          ↔ countIssuesInResultList StylelintResult.messages results = 0) := by
  by_cases h : countIssuesInResultList StylelintResult.messages results = 0 <;>
    simp [provideResultsToReporters, mapReporters, runReporter, selectedReporters,
      failAfterAllErrorsReporter, h, Nat.pos_of_ne_zero]

/-- Helper: the pending-operation list after a collecting phase depends
only on the pending-operation list of the starting state. -/
lemma foldl_stepFile_promiseList (fs : List File) (st st' : BatchState)
    (h : st.promiseList = st'.promiseList) :
    (List.foldl stepFile st fs).promiseList = (List.foldl stepFile st' fs).promiseList := by
  induction fs generalizing st st' with
  | nil => simpa using h
  | cons f t ih =>
    refine ih _ _ ?_
    cases hc : f.contents <;> simp [stepFile, onFile, hc, h]

/-- C7: a streaming record makes the handler fail immediately with the
plugin-tagged streaming-not-supported error, append no lint operation and
pass nothing through; at batch level the pending lint operations are
exactly those of the same input sequence without the streaming record, so
other records are unaffected. -/
theorem onFile_rejects_streaming (promiseList : List LintOperation) (file : File)
    (fs1 fs2 : List File) (hstream : file.contents = FileContents.streamed) :
    onFile promiseList file
        = { promiseList := promiseList
            passedThrough := none
            error := some { plugin := pluginName, message := "Streaming not supported" } }
      ∧ (processFiles (fs1 ++ file :: fs2)).promiseList
        = (processFiles (fs1 ++ fs2)).promiseList := by
  constructor
  · simp [onFile, hstream]
  · unfold processFiles
    rw [List.foldl_append, List.foldl_append]
    show (List.foldl stepFile (stepFile _ file) fs2).promiseList = _
    refine foldl_stepFile_promiseList fs2 _ _ ?_
    simp [stepFile, onFile, hstream]

/-- Witness for C7: a streaming record between two buffered records is
rejected with the plugin-tagged error while both buffered records are
still linted. -/
theorem onFile_rejects_streaming_witness :
    onFile [] { contents := FileContents.streamed, path := "s.css" }
        = { promiseList := []
            passedThrough := none
            error := some { plugin := pluginName, message := "Streaming not supported" } }
      ∧ (processFiles
            ([{ contents := FileContents.buffered "a \x7b\x7d", path := "a.css" }]
              ++ { contents := FileContents.streamed, path := "s.css" }
                :: [{ contents := FileContents.buffered "b \x7b\x7d", path := "b.css" }])).promiseList
        = (processFiles
            ([{ contents := FileContents.buffered "a \x7b\x7d", path := "a.css" }]
              ++ [{ contents := FileContents.buffered "b \x7b\x7d", path := "b.css" }])).promiseList :=
  onFile_rejects_streaming [] _ _ _ rfl

end GulpStylelintCheckstyle
